import Mathlib

/-!
Verification of the ingestion-and-aggregation pipeline of the Traffic-Data
backend (`backend/app/ingest.py`, `backend/app/main.py`, schema in
`backend/app/models.py`).

The embedding is shallow: Python floats are modelled as rationals (`ℚ`),
SQL tables as Lean lists of row structures, JSON payloads as an inductive
value type, and Python exceptions as `Except`.  Timestamps are passed as
explicit parameters (the code captures `datetime.now(timezone.utc)`
truncated to whole seconds; the wall clock itself is outside the model).
-/

namespace TrafficData

/-! ## Grid generation — `generate_grid` in `backend/app/ingest.py`

`parse_latlon` (string splitting on a comma) is plumbing; the grid logic is
modelled over the already-parsed corner coordinates. -/

structure GridPoint where
  lat : ℚ
  lon : ℚ
  name : String
deriving DecidableEq, Repr

/-- `generate_grid` of `backend/app/ingest.py` (lines 27–44): a regular
lattice over the bounding box, row-major, with labels `grid_r{r}_c{c}`. -/
def generate_grid (sw_lat sw_lon ne_lat ne_lon : ℚ) (rows cols : ℕ) :
    List GridPoint :=
  let lat_step : ℚ := (ne_lat - sw_lat) / (max (rows - 1) 1 : ℕ)
  let lon_step : ℚ := (ne_lon - sw_lon) / (max (cols - 1) 1 : ℕ)
  (List.range rows).flatMap (fun (r : ℕ) =>
    (List.range cols).map (fun (c : ℕ) =>
      { lat := sw_lat + (r : ℚ) * lat_step
        lon := sw_lon + (c : ℚ) * lon_step
        name := "grid_r" ++ toString r ++ "_c" ++ toString c }))

/-! ## Stats derivation — `stats` in `backend/app/main.py`

The SQL aggregation (lines 166–180) groups observations of the window per
intersection and produces per-row `n`, `avg_current`, `avg_freeflow`; SQL
`AVG` skips NULLs, so an average is NULL exactly when every input was NULL.
The Lean model starts from those aggregated rows and embeds the Python
post-processing (lines 183–197). -/

structure StatRow where
  intersection_id : ℕ
  name : Option String
  lat : ℚ
  lon : ℚ
  n : ℕ
  avg_current : Option ℚ
  avg_freeflow : Option ℚ
deriving DecidableEq, Repr

structure StatRowOut where
  intersection_id : ℕ
  name : Option String
  lat : ℚ
  lon : ℚ
  n : ℕ
  avg_current : Option ℚ
  avg_freeflow : Option ℚ
  avg_ratio : Option ℚ
  avg_deficit : Option ℚ
deriving DecidableEq, Repr

/-- Python `x or d` on an optional float: `None` and `0.0` are falsy. -/
def pyOr (x : Option ℚ) (d : ℚ) : ℚ :=
  match x with
  | none => d
  | some q => if q = 0 then d else q

/-- Lines 183–187 of `backend/app/main.py`, the per-row derivation.
The source's deficit guard is `avg_f and avg_c is not None`; after the
coalescing `avg_c = r["avg_current"] or 0.0` the name `avg_c` is bound to a
float, so `avg_c is not None` always holds and the guard reduces to the
truthiness of `avg_f`. -/
def deriveStat (r : StatRow) : StatRowOut :=
  let avg_c : ℚ := pyOr r.avg_current 0
  let avg_f : ℚ := pyOr r.avg_freeflow 0
  { intersection_id := r.intersection_id
    name := r.name
    lat := r.lat
    lon := r.lon
    n := r.n
    avg_current := r.avg_current
    avg_freeflow := r.avg_freeflow
    avg_ratio := if avg_f ≠ 0 then some (avg_c / avg_f) else none
    avg_deficit := if avg_f ≠ 0 then some (avg_f - avg_c) else none }

/-- Python's `min(l, key)` on a nonempty list: the first element attaining
the minimal key (later elements replace the best only on a strictly
smaller key). -/
def pyMin {α : Type} (key : α → ℚ) : List α → Option α
  | [] => none
  | x :: xs => some (xs.foldl (fun b y => if key y < key b then y else b) x)

/-- Lines 190–194 of `backend/app/main.py`: filter the rows with a present
`avg_ratio`, then take the one with the smallest ratio. -/
def pickWorst (rows : List StatRowOut) : Option StatRowOut :=
  let rows_with_ratio := rows.filter (fun r => r.avg_ratio.isSome)
  pyMin (fun r => r.avg_ratio.getD 0) rows_with_ratio

structure StatsOut where
  hours : ℕ
  per_intersection : List StatRowOut
  worst : Option StatRowOut
deriving DecidableEq, Repr

/-- The `/stats` response assembly (lines 183–197): derive ratios per row,
pick the worst. -/
def stats (hours : ℕ) (rows : List StatRow) : StatsOut :=
  let out := rows.map deriveStat
  { hours := hours, per_intersection := out, worst := pickWorst out }

/-! ## Series ratio — `series` in `backend/app/main.py` (lines 146–158)

Each stored observation of the window is returned augmented with
`ratio = current_speed / freeflow_speed if freeflow_speed else None`.
Python evaluates the ternary guard first, so the division never runs with a
falsy (absent or zero) divisor; it does run with an absent numerator, which
raises `TypeError`, hence the `Except`. -/

structure SeriesObs where
  ts : ℕ
  current_speed : Option ℚ
  freeflow_speed : Option ℚ
  confidence : Option ℚ
deriving DecidableEq, Repr

structure SeriesRow where
  ts : ℕ
  current_speed : Option ℚ
  freeflow_speed : Option ℚ
  confidence : Option ℚ
  ratio : Option ℚ
deriving DecidableEq, Repr

/-- `(r.current_speed / r.freeflow_speed) if r.freeflow_speed else None`.
The ternary guard is the truthiness of `freeflow_speed`: falsy when absent
or zero, in which case the division is never evaluated. -/
def seriesRatio (cur ff : Option ℚ) : Except String (Option ℚ) :=
  match ff with
  | some f =>
      if f ≠ 0 then
        match cur with
        | some c => .ok (some (c / f))
        | none => .error "TypeError: unsupported operand"
      else .ok none
  | none => .ok none

/-- One row of the `/series` response (lines 149–155). -/
def mkSeriesRow (o : SeriesObs) : Except String SeriesRow :=
  (seriesRatio o.current_speed o.freeflow_speed).map (fun q =>
    { ts := o.ts
      current_speed := o.current_speed
      freeflow_speed := o.freeflow_speed
      confidence := o.confidence
      ratio := q })

/-- The `rows` list of the `/series` response: the comprehension over the
window's observations, evaluated in order; the first raising row
propagates its exception. -/
def seriesRows : List SeriesObs → Except String (List SeriesRow)
  | [] => .ok []
  | o :: rest =>
      match mkSeriesRow o with
      | .error e => .error e
      | .ok r =>
          match seriesRows rest with
          | .error e => .error e
          | .ok rs => .ok (r :: rs)

/-! ## JSON payloads and observation storage — `backend/app/ingest.py`

`store_observation` (lines 61–80) reads the nested `flowSegmentData`
object out of the fetched payload and inserts one row, deduplicated on
`(intersection_id, ts_utc)` by SQLite's `ON CONFLICT DO NOTHING` against
the unique constraint of `backend/app/models.py` (lines 35–38). -/

/-- A JSON-like payload value.  A dict is an association list (Python dict
keys are unique; lookup takes the first match). -/
inductive JsonVal where
  | dict (entries : List (String × JsonVal))
  | num (q : ℚ)
  | str (s : String)
  | null
deriving Repr

/-- Python `d.get(key)`: `None` when the key is missing. -/
def dictGet : List (String × JsonVal) → String → Option JsonVal
  | [], _ => none
  | (k, v) :: rest, key => if k = key then some v else dictGet rest key

/-- The five optional flow-segment columns of `FlowObservation`
(`backend/app/models.py` lines 29–33). -/
structure SegFields where
  current_speed : Option JsonVal
  freeflow_speed : Option JsonVal
  current_travel_time : Option JsonVal
  freeflow_travel_time : Option JsonVal
  confidence : Option JsonVal

/-- Lines 62 and 69–73 of `backend/app/ingest.py`: `seg = payload.get
("flowSegmentData", {}) if isinstance(payload, dict) else {}`, then the
five `seg.get(...)` reads.  When `flowSegmentData` maps to a non-dict,
`seg.get` raises `AttributeError`. -/
def extractSeg (payload : JsonVal) : Except String SegFields :=
  let seg : JsonVal :=
    match payload with
    | .dict entries => (dictGet entries "flowSegmentData").getD (.dict [])
    | _ => .dict []
  match seg with
  | .dict s =>
      .ok { current_speed := dictGet s "currentSpeed"
            freeflow_speed := dictGet s "freeFlowSpeed"
            current_travel_time := dictGet s "currentTravelTime"
            freeflow_travel_time := dictGet s "freeFlowTravelTime"
            confidence := dictGet s "confidence" }
  | _ => .error "AttributeError: no attribute get"

/-- A stored `flow_observations` row.  The autoincrement surrogate `id`
column is unused by the pipeline and omitted; `ts_utc` is in whole
seconds. -/
structure ObsRow where
  intersection_id : ℕ
  ts_utc : ℕ
  current_speed : Option JsonVal
  freeflow_speed : Option JsonVal
  current_travel_time : Option JsonVal
  freeflow_travel_time : Option JsonVal
  confidence : Option JsonVal

/-- Does the table already hold a row with this
`(intersection_id, ts_utc)` key? -/
def hasObsKey (db : List ObsRow) (iid ts : ℕ) : Bool :=
  db.any (fun o => o.intersection_id = iid && o.ts_utc = ts)

/-- The executed insert (lines 66–79): `INSERT ... ON CONFLICT
(intersection_id, ts_utc) DO NOTHING`. -/
def record (db : List ObsRow) (iid ts : ℕ) (f : SegFields) : List ObsRow :=
  if hasObsKey db iid ts then db
  else
    db ++ [{ intersection_id := iid
             ts_utc := ts
             current_speed := f.current_speed
             freeflow_speed := f.freeflow_speed
             current_travel_time := f.current_travel_time
             freeflow_travel_time := f.freeflow_travel_time
             confidence := f.confidence }]

/-- `store_observation` (lines 61–80): extract the segment fields, then
insert-or-ignore.  `ts` stands for `datetime.now(timezone.utc).replace
(microsecond=0)` captured at call time. -/
def store_observation (db : List ObsRow) (iid ts : ℕ) (payload : JsonVal) :
    Except String (List ObsRow) :=
  (extractSeg payload).map (record db iid ts)

/-! ## Intersection registry — `upsert_intersection` in
`backend/app/ingest.py` (lines 49–58) -/

/-- A stored `intersections` row (`backend/app/models.py` lines 10–19). -/
structure InterRow where
  id : ℕ
  name : Option String
  lat : ℚ
  lon : ℚ
deriving DecidableEq, Repr

/-- SQLite's next autoincrement id: one past the largest stored id. -/
def nextId (db : List InterRow) : ℕ :=
  (db.map (fun i => i.id)).foldr max 0 + 1

/-- `upsert_intersection` (lines 49–58): `scalar_one_or_none` over the
exact-equality lookup raises `MultipleResultsFound` on more than one match
(impossible under the table's unique `(lat, lon)` constraint); otherwise
return the found id, or insert a fresh row and return its id. -/
def upsert_intersection (db : List InterRow) (lat lon : ℚ)
    (name : Option String) : Except String (ℕ × List InterRow) :=
  match db.filter (fun i => i.lat = lat && i.lon = lon) with
  | [] =>
      let nid := nextId db
      .ok (nid, db ++ [{ id := nid, name := name, lat := lat, lon := lon }])
  | [row] => .ok (row.id, db)
  | _ => .error "MultipleResultsFound"

/-! ## Ingest cycle — `ingest_once` in `backend/app/ingest.py`
(lines 86–99)

Per grid point, in order: resolve the intersection, fetch the flow payload
(external collaborator, modelled as a function that may fail), store the
observation.  Any exception in those three steps is caught by the
per-point `try/except`, printed, and the loop continues.  The database
state is the pair of the two tables; commits happen inside
`upsert_intersection` and `store_observation`, so a later failure keeps
the earlier step's effect. -/

structure DbState where
  inters : List InterRow
  obs : List ObsRow

/-- The per-point console outcome: the `✓ ... stored` line or the
`! Failed for ...` line. -/
inductive Outcome where
  | stored (name : String)
  | failed (msg : String)

/-- The body of the `for` loop (lines 92–99) for one point `(lat, lon,
name)`: the three steps under `try`, each failure caught and turned into a
`failed` outcome.  A failure after `upsert_intersection` returned keeps
its committed insert. -/
def processPoint (fetch : ℚ → ℚ → Except String JsonVal) (ts : ℕ)
    (st : DbState) (p : GridPoint) : DbState × Outcome :=
  match upsert_intersection st.inters p.lat p.lon (some p.name) with
  | .error e => (st, .failed e)
  | .ok (iid, inters₁) =>
      match fetch p.lat p.lon with
      | .error e => ({ st with inters := inters₁ }, .failed e)
      | .ok data =>
          match store_observation st.obs iid ts data with
          | .error e => ({ st with inters := inters₁ }, .failed e)
          | .ok obs₁ => ({ inters := inters₁, obs := obs₁ }, .stored p.name)

/-- The `for lat, lon, name in points` loop of `ingest_once`: every point
is attempted once, in order, and the outcome of each is recorded; a
`failed` outcome never stops the traversal. -/
def ingestLoop (fetch : ℚ → ℚ → Except String JsonVal) (ts : ℕ)
    (st : DbState) : List GridPoint → DbState × List Outcome
  | [] => (st, [])
  | p :: ps =>
      let r := processPoint fetch ts st p
      let rest := ingestLoop fetch ts r.1 ps
      (rest.1, r.2 :: rest.2)

/-- `ingest_once` (lines 86–99): hard-fail when the API key is missing
(empty string is falsy), else run the loop over all points. -/
def ingest_once (key : String) (fetch : ℚ → ℚ → Except String JsonVal)
    (ts : ℕ) (st : DbState) (points : List GridPoint) :
    Except String (DbState × List Outcome) :=
  if key = "" then .error "TOMTOM_API_KEY missing"
  else .ok (ingestLoop fetch ts st points)

/-! ## Scheduler — `main` in `backend/app/ingest.py` (lines 122–131)

The run-or-repeat logic is modelled as the trace of its effects: cycle
executions and sleeps (`time.sleep(args.interval * 60)` seconds). -/

inductive Event where
  | cycle
  | sleepSec (n : ℤ)
deriving DecidableEq, Repr

def Event.isCycle : Event → Bool
  | .cycle => true
  | .sleepSec _ => false

/-- Lines 122–131: one cycle when `interval <= 0`; otherwise
`iters = max(iterations, 1)` cycles with a sleep of `interval * 60`
seconds after every cycle but the last (`if i < iters - 1`). -/
def scheduler (interval iterations : ℤ) : List Event :=
  if interval ≤ 0 then [Event.cycle]
  else
    let iters := (max iterations 1).toNat
    (List.range iters).flatMap (fun i =>
      Event.cycle ::
        (if i < iters - 1 then [Event.sleepSec (interval * 60)] else []))

/-! ## Helper lemmas -/

lemma flatMap_range_map_length {β : Type} (f : ℕ → ℕ → β) (R C : ℕ) :
    ((List.range R).flatMap (fun r => (List.range C).map (f r))).length =
      R * C := by
  induction R with
  | zero => simp
  | succ n ih =>
      rw [List.range_succ, List.flatMap_append, List.length_append, ih]
      simp [Nat.succ_mul]

lemma flatMap_range_map_getElem {β : Type} (f : ℕ → ℕ → β) (R C r c : ℕ)
    (hr : r < R) (hc : c < C) :
    ((List.range R).flatMap (fun i => (List.range C).map (f i)))[r * C + c]? =
      some (f r c) := by
  induction R with
  | zero => omega
  | succ n ih =>
    rw [List.range_succ, List.flatMap_append]
    rcases Nat.lt_or_ge r n with h | h
    · rw [List.getElem?_append_left]
      · exact ih h
      · rw [flatMap_range_map_length]
        calc r * C + c < r * C + C := by omega
          _ = (r + 1) * C := by ring
          _ ≤ n * C := Nat.mul_le_mul_right C (by omega)
    · have hrn : r = n := by omega
      subst hrn
      rw [List.getElem?_append_right (by rw [flatMap_range_map_length]; omega)]
      rw [flatMap_range_map_length]
      simp only [List.flatMap_cons, List.flatMap_nil, List.append_nil,
        Nat.add_sub_cancel_left]
      rw [List.getElem?_map, List.getElem?_range hc]
      rfl

/-! ## C3 — grid generation -/

/-- C3: for every bounding box and every `R ≥ 1`, `C ≥ 1`, `generate_grid`
produces exactly `R*C` points, the point at row-major position `(r, c)` is
`(sw.lat + r·(ne.lat−sw.lat)/max(R−1,1), sw.lon + c·(ne.lon−sw.lon)/max
(C−1,1))` labelled `grid_r{r}_c{c}`; hence point `(0,0)` is `sw` and point
`(R−1,C−1)` is `ne` when `R>1` and `C>1`.  Determinism over the same
inputs is definitional: `generate_grid` is a pure function of its
arguments. -/
theorem generate_grid_spec (sw_lat sw_lon ne_lat ne_lon : ℚ) (R C : ℕ)
    (hR : 1 ≤ R) (hC : 1 ≤ C) :
    (generate_grid sw_lat sw_lon ne_lat ne_lon R C).length = R * C ∧
    (∀ r c, r < R → c < C →
      (generate_grid sw_lat sw_lon ne_lat ne_lon R C)[r * C + c]? =
        some { lat := sw_lat + r * ((ne_lat - sw_lat) / (max (R - 1) 1 : ℕ))
               lon := sw_lon + c * ((ne_lon - sw_lon) / (max (C - 1) 1 : ℕ))
               name := "grid_r" ++ toString r ++ "_c" ++ toString c }) ∧
    (generate_grid sw_lat sw_lon ne_lat ne_lon R C)[0]? =
      some { lat := sw_lat, lon := sw_lon, name := "grid_r0_c0" } ∧
    (1 < R → 1 < C →
      (generate_grid sw_lat sw_lon ne_lat ne_lon R C)[(R - 1) * C + (C - 1)]? =
        some { lat := ne_lat, lon := ne_lon
               name := "grid_r" ++ toString (R - 1) ++ "_c" ++
                 toString (C - 1) }) := by
  have hlen : (generate_grid sw_lat sw_lon ne_lat ne_lon R C).length = R * C := by
    rw [generate_grid]
    exact flatMap_range_map_length _ R C
  have hpt : ∀ r c, r < R → c < C →
      (generate_grid sw_lat sw_lon ne_lat ne_lon R C)[r * C + c]? =
        some { lat := sw_lat + r * ((ne_lat - sw_lat) / (max (R - 1) 1 : ℕ))
               lon := sw_lon + c * ((ne_lon - sw_lon) / (max (C - 1) 1 : ℕ))
               name := "grid_r" ++ toString r ++ "_c" ++ toString c } := by
    intro r c hr hc
    rw [generate_grid]
    exact flatMap_range_map_getElem _ R C r c hr hc
  refine ⟨hlen, hpt, ?_, ?_⟩
  · have h0 := hpt 0 0 (by omega) (by omega)
    rw [show 0 * C + 0 = 0 from by omega] at h0
    rw [h0]
    simp only [Option.some.injEq, GridPoint.mk.injEq]
    refine ⟨by norm_num, by norm_num, by decide⟩
  · intro hR1 hC1
    have h := hpt (R - 1) (C - 1) (by omega) (by omega)
    have hmr : max (R - 1) 1 = R - 1 := by omega
    have hmc : max (C - 1) 1 = C - 1 := by omega
    rw [hmr, hmc] at h
    rw [h]
    have hR1' : (1 : ℚ) < (R : ℚ) := by exact_mod_cast hR1
    have hC1' : (1 : ℚ) < (C : ℚ) := by exact_mod_cast hC1
    have hrz' : (R : ℚ) - 1 ≠ 0 := ne_of_gt (by linarith)
    have hcz' : (C : ℚ) - 1 ≠ 0 := ne_of_gt (by linarith)
    simp only [Option.some.injEq, GridPoint.mk.injEq]
    refine ⟨?_, ?_, trivial⟩
    · rw [Nat.cast_sub (by omega)]
      push_cast
      field_simp
    · rw [Nat.cast_sub (by omega)]
      push_cast
      field_simp

/-- C3 at a concrete input: the 3×4 grid over `(0,0)`–`(3,6)`. -/
theorem generate_grid_spec_witness :
    (generate_grid 0 0 3 6 3 4).length = 3 * 4 ∧
    (∀ r c, r < 3 → c < 4 →
      (generate_grid 0 0 3 6 3 4)[r * 4 + c]? =
        some { lat := 0 + r * ((3 - 0) / (max (3 - 1) 1 : ℕ))
               lon := 0 + c * ((6 - 0) / (max (4 - 1) 1 : ℕ))
               name := "grid_r" ++ toString r ++ "_c" ++ toString c }) ∧
    (generate_grid 0 0 3 6 3 4)[0]? =
      some { lat := 0, lon := 0, name := "grid_r0_c0" } ∧
    (1 < 3 → 1 < 4 →
      (generate_grid 0 0 3 6 3 4)[(3 - 1) * 4 + (4 - 1)]? =
        some { lat := 3, lon := 6
               name := "grid_r" ++ toString (3 - 1) ++ "_c" ++
                 toString (4 - 1) }) :=
  generate_grid_spec 0 0 3 6 3 4 (by omega) (by omega)

/-! ## C1 — stats ratio/deficit derivation

The claim fails on the code: `avg_c = r["avg_current"] or 0.0` coalesces
an absent `avg_current` to `0.0` before the deficit guard's
`avg_c is not None` check, so that check never fires; with `avg_current`
absent and `avg_freeflow` non-zero the code yields `avg_ratio = 0.0` and
`avg_deficit = avg_freeflow`, both present. -/

/-- C1 counterexample: one aggregated row with `avg_current` absent and
`avg_freeflow = 50`.  The claim requires `avg_ratio` and `avg_deficit` to
be absent; the code produces `avg_ratio = 0` and `avg_deficit = 50`. -/
theorem stats_absent_current_counterexample :
    ((stats 6 [{ intersection_id := 1, name := some "grid_r0_c0", lat := 0,
                 lon := 0, n := 2, avg_current := none,
                 avg_freeflow := some 50 }]).per_intersection.map
        (fun r => (r.avg_current, r.avg_ratio, r.avg_deficit))) =
      [(none, some 0, some 50)] := by
  norm_num [stats, deriveStat, pyOr]

/-- C1 (amended): per row of `stats(hours).per_intersection`, with
`avg_current` coalesced to `0` when absent or zero, `avg_ratio` equals the
coalesced `avg_current` divided by `avg_freeflow` and `avg_deficit` equals
`avg_freeflow` minus the coalesced `avg_current`, both present exactly
when `avg_freeflow` is present and non-zero and both absent when it is
absent or zero; in particular, when `avg_current` is absent but
`avg_freeflow` is present and non-zero, `avg_ratio` is `0` and
`avg_deficit` equals `avg_freeflow`. -/
theorem stats_ratio_deficit (hours : ℕ) (rows : List StatRow) :
    ∀ r ∈ (stats hours rows).per_intersection,
      ((r.avg_freeflow = none ∨ r.avg_freeflow = some 0) →
        r.avg_ratio = none ∧ r.avg_deficit = none) ∧
      (∀ f, r.avg_freeflow = some f → f ≠ 0 →
        r.avg_ratio = some (pyOr r.avg_current 0 / f) ∧
        r.avg_deficit = some (f - pyOr r.avg_current 0)) ∧
      (r.avg_current = none → r.avg_freeflow ≠ none →
        r.avg_freeflow ≠ some 0 →
        r.avg_ratio = some 0 ∧ r.avg_deficit = r.avg_freeflow) := by
  intro r hr
  simp only [stats] at hr
  obtain ⟨r₀, -, rfl⟩ := List.mem_map.mp hr
  have hff : (deriveStat r₀).avg_freeflow = r₀.avg_freeflow := rfl
  have hcc : (deriveStat r₀).avg_current = r₀.avg_current := rfl
  refine ⟨?_, ?_, ?_⟩
  · rw [hff]
    rintro (h | h) <;> simp [deriveStat, pyOr, h]
  · rw [hff]
    intro f hf hfne
    simp [deriveStat, pyOr, hf, hfne]
  · rw [hcc, hff]
    intro hc hf1 hf2
    rcases hq : r₀.avg_freeflow with _ | f
    · exact absurd hq hf1
    · have hfne : f ≠ 0 := fun h => hf2 (by rw [hq, h])
      simp [deriveStat, pyOr, hc, hq, hfne]

/-- C1 (amended) at a concrete input: a row with `avg_current = 30` and
`avg_freeflow = 60` inside a two-row `stats` result. -/
theorem stats_ratio_deficit_witness :
    ((deriveStat { intersection_id := 1, name := none, lat := 0, lon := 0,
                   n := 3, avg_current := some 30,
                   avg_freeflow := some 60 }).avg_freeflow = none ∨
      (deriveStat { intersection_id := 1, name := none, lat := 0, lon := 0,
                    n := 3, avg_current := some 30,
                    avg_freeflow := some 60 }).avg_freeflow = some 0 →
        (deriveStat { intersection_id := 1, name := none, lat := 0, lon := 0,
                      n := 3, avg_current := some 30,
                      avg_freeflow := some 60 }).avg_ratio = none ∧
        (deriveStat { intersection_id := 1, name := none, lat := 0, lon := 0,
                      n := 3, avg_current := some 30,
                      avg_freeflow := some 60 }).avg_deficit = none) ∧
    (∀ f,
      (deriveStat { intersection_id := 1, name := none, lat := 0, lon := 0,
                    n := 3, avg_current := some 30,
                    avg_freeflow := some 60 }).avg_freeflow = some f →
      f ≠ 0 →
      (deriveStat { intersection_id := 1, name := none, lat := 0, lon := 0,
                    n := 3, avg_current := some 30,
                    avg_freeflow := some 60 }).avg_ratio =
        some (pyOr (deriveStat { intersection_id := 1, name := none, lat := 0,
                                 lon := 0, n := 3, avg_current := some 30,
                                 avg_freeflow := some 60 }).avg_current 0 / f) ∧
      (deriveStat { intersection_id := 1, name := none, lat := 0, lon := 0,
                    n := 3, avg_current := some 30,
                    avg_freeflow := some 60 }).avg_deficit =
        some (f - pyOr (deriveStat { intersection_id := 1, name := none,
                                     lat := 0, lon := 0, n := 3,
                                     avg_current := some 30,
                                     avg_freeflow := some 60 }).avg_current 0)) ∧
    ((deriveStat { intersection_id := 1, name := none, lat := 0, lon := 0,
                   n := 3, avg_current := some 30,
                   avg_freeflow := some 60 }).avg_current = none →
      (deriveStat { intersection_id := 1, name := none, lat := 0, lon := 0,
                    n := 3, avg_current := some 30,
                    avg_freeflow := some 60 }).avg_freeflow ≠ none →
      (deriveStat { intersection_id := 1, name := none, lat := 0, lon := 0,
                    n := 3, avg_current := some 30,
                    avg_freeflow := some 60 }).avg_freeflow ≠ some 0 →
      (deriveStat { intersection_id := 1, name := none, lat := 0, lon := 0,
                    n := 3, avg_current := some 30,
                    avg_freeflow := some 60 }).avg_ratio = some 0 ∧
      (deriveStat { intersection_id := 1, name := none, lat := 0, lon := 0,
                    n := 3, avg_current := some 30,
                    avg_freeflow := some 60 }).avg_deficit =
        (deriveStat { intersection_id := 1, name := none, lat := 0, lon := 0,
                      n := 3, avg_current := some 30,
                      avg_freeflow := some 60 }).avg_freeflow) :=
  stats_ratio_deficit 6
    [{ intersection_id := 1, name := none, lat := 0, lon := 0, n := 3,
       avg_current := some 30, avg_freeflow := some 60 }]
    (deriveStat { intersection_id := 1, name := none, lat := 0, lon := 0,
                  n := 3, avg_current := some 30, avg_freeflow := some 60 })
    (by simp [stats])

/-! ## C2 — the worst row -/

lemma pyMin_foldl_mem {α : Type} (key : α → ℚ) (xs : List α) (b : α) :
    xs.foldl (fun acc y => if key y < key acc then y else acc) b ∈ b :: xs := by
  induction xs generalizing b with
  | nil => simp
  | cons x xs ih =>
      simp only [List.foldl_cons]
      rcases List.mem_cons.mp (ih (if key x < key b then x else b)) with h | h
      · rw [h]
        by_cases hx : key x < key b <;> simp [hx]
      · simp [List.mem_cons.mpr (Or.inr h)]

lemma pyMin_foldl_le {α : Type} (key : α → ℚ) (xs : List α) (b : α) :
    ∀ y ∈ b :: xs,
      key (xs.foldl (fun acc z => if key z < key acc then z else acc) b) ≤
        key y := by
  induction xs generalizing b with
  | nil =>
      intro y hy
      simp only [List.mem_singleton] at hy
      simp [hy]
  | cons x xs ih =>
      intro y hy
      simp only [List.foldl_cons]
      have hstep : key (if key x < key b then x else b) ≤ key b ∧
          key (if key x < key b then x else b) ≤ key x := by
        by_cases hx : key x < key b <;>
          simp [hx, le_of_lt, le_of_not_lt]
      rcases List.mem_cons.mp hy with rfl | hy'
      · exact le_trans
          (ih _ _ (List.mem_cons_self _ _)) hstep.1
      · rcases List.mem_cons.mp hy' with rfl | hy''
        · exact le_trans
            (ih _ _ (List.mem_cons_self _ _)) hstep.2
        · exact ih _ _ (List.mem_cons_of_mem _ hy'')

lemma pyMin_eq_none_iff {α : Type} (key : α → ℚ) (l : List α) :
    pyMin key l = none ↔ l = [] := by
  cases l <;> simp [pyMin]

lemma pyMin_mem {α : Type} (key : α → ℚ) (l : List α) (x : α)
    (h : pyMin key l = some x) : x ∈ l := by
  cases l with
  | nil => simp [pyMin] at h
  | cons b xs =>
      simp only [pyMin, Option.some.injEq] at h
      rw [← h]
      exact pyMin_foldl_mem key xs b

lemma pyMin_min {α : Type} (key : α → ℚ) (l : List α) (x : α)
    (h : pyMin key l = some x) : ∀ y ∈ l, key x ≤ key y := by
  cases l with
  | nil => simp [pyMin] at h
  | cons b xs =>
      simp only [pyMin, Option.some.injEq] at h
      rw [← h]
      exact pyMin_foldl_le key xs b

/-- C2: `worst` of `stats(hours)` is absent exactly when no
per-intersection row has a present `avg_ratio`; when present, it is one of
the per-intersection rows, its `avg_ratio` is present, and its ratio is
less than or equal to every present ratio of the list (rows with an
absent ratio are never selected, Python's `min` keeping the first of
equals). -/
theorem stats_worst_spec (hours : ℕ) (rows : List StatRow) :
    ((stats hours rows).worst = none ↔
      ∀ r ∈ (stats hours rows).per_intersection, r.avg_ratio = none) ∧
    (∀ w, (stats hours rows).worst = some w →
      w ∈ (stats hours rows).per_intersection ∧ w.avg_ratio.isSome ∧
      ∀ r ∈ (stats hours rows).per_intersection, ∀ q qr,
        w.avg_ratio = some q → r.avg_ratio = some qr → q ≤ qr) := by
  have hworst : (stats hours rows).worst =
      pyMin (fun r => r.avg_ratio.getD 0)
        ((stats hours rows).per_intersection.filter
          (fun r => r.avg_ratio.isSome)) := rfl
  constructor
  · rw [hworst, pyMin_eq_none_iff, List.filter_eq_nil_iff]
    constructor
    · intro h r hr
      exact Option.not_isSome_iff_eq_none.mp (h r hr)
    · intro h r hr
      exact Option.not_isSome_iff_eq_none.mpr (h r hr)
  · intro w hw
    rw [hworst] at hw
    have hmem := pyMin_mem _ _ _ hw
    rcases List.mem_filter.mp hmem with ⟨hmem', hsome⟩
    refine ⟨hmem', hsome, ?_⟩
    intro r hr q qr hq hqr
    have hrf : r ∈ (stats hours rows).per_intersection.filter
        (fun r => r.avg_ratio.isSome) :=
      List.mem_filter.mpr ⟨hr, by simp [hqr]⟩
    have := pyMin_min _ _ _ hw r hrf
    simpa [hq, hqr] using this

/-! ## C6 — series ratio never divides by a zero or absent divisor -/

lemma seriesRows_mem {obs : List SeriesObs} {out : List SeriesRow}
    (hout : seriesRows obs = .ok out) :
    ∀ r ∈ out, ∃ o ∈ obs, mkSeriesRow o = .ok r := by
  induction obs generalizing out with
  | nil =>
      simp only [seriesRows, Except.ok.injEq] at hout
      subst hout
      simp
  | cons o rest ih =>
      simp only [seriesRows] at hout
      cases hmk : mkSeriesRow o with
      | error e => rw [hmk] at hout; simp at hout
      | ok r₀ =>
          rw [hmk] at hout
          cases hrest : seriesRows rest with
          | error e =>
              rw [hrest] at hout
              simp at hout
          | ok rs =>
              rw [hrest] at hout
              simp only [Except.ok.injEq] at hout
              subst hout
              intro r hr
              rcases List.mem_cons.mp hr with rfl | hr'
              · exact ⟨o, List.mem_cons_self _ _, hmk⟩
              · obtain ⟨o', ho', hmk'⟩ := ih hrest r hr'
                exact ⟨o', List.mem_cons_of_mem _ ho', hmk'⟩

/-- C6: every row the `/series` comprehension returns carries
`ratio = current_speed / freeflow_speed` exactly when `freeflow_speed` is
present and non-zero (in which case `current_speed` was present too), and
`ratio = none` — not an error, not a division result — whenever
`freeflow_speed` is absent or zero: the guard is evaluated before the
division, so the division never runs with a zero or absent divisor. -/
theorem series_ratio_spec (obs : List SeriesObs) (out : List SeriesRow)
    (hout : seriesRows obs = .ok out) :
    ∀ r ∈ out,
      ((r.freeflow_speed = none ∨ r.freeflow_speed = some 0) →
        r.ratio = none) ∧
      (∀ f, r.freeflow_speed = some f → f ≠ 0 →
        ∃ c, r.current_speed = some c ∧ r.ratio = some (c / f)) := by
  intro r hr
  obtain ⟨o, -, hmk⟩ := seriesRows_mem hout r hr
  simp only [mkSeriesRow] at hmk
  cases hq : seriesRatio o.current_speed o.freeflow_speed with
  | error e => rw [hq] at hmk; simp [Except.map] at hmk
  | ok q =>
      rw [hq] at hmk
      simp only [Except.map, Except.ok.injEq] at hmk
      subst hmk
      simp only
      constructor
      · rintro (h | h) <;> rw [h] at hq
        · simpa [seriesRatio] using hq.symm
        · simpa [seriesRatio] using hq.symm
      · intro f hf hfne
        rw [hf] at hq
        simp only [seriesRatio, hfne, if_pos, ne_eq, not_false_iff] at hq
        cases hc : o.current_speed with
        | none => rw [hc] at hq; simp at hq
        | some c =>
            rw [hc] at hq
            simp only [Except.ok.injEq] at hq
            exact ⟨c, rfl, hq.symm⟩

/-- C6 at a concrete input: three observations — a normal one, one with an
absent free-flow speed and one with a zero free-flow speed. -/
theorem series_ratio_spec_witness :
    (({ ts := 2, current_speed := some 10, freeflow_speed := some 0,
        confidence := none, ratio := none } : SeriesRow).freeflow_speed = none ∨
      ({ ts := 2, current_speed := some 10, freeflow_speed := some 0,
         confidence := none, ratio := none } : SeriesRow).freeflow_speed = some 0 →
        ({ ts := 2, current_speed := some 10, freeflow_speed := some 0,
           confidence := none, ratio := none } : SeriesRow).ratio = none) ∧
    (∀ f,
      ({ ts := 2, current_speed := some 10, freeflow_speed := some 0,
         confidence := none, ratio := none } : SeriesRow).freeflow_speed = some f →
      f ≠ 0 →
      ∃ c, ({ ts := 2, current_speed := some 10, freeflow_speed := some 0,
              confidence := none, ratio := none } : SeriesRow).current_speed = some c ∧
        ({ ts := 2, current_speed := some 10, freeflow_speed := some 0,
           confidence := none, ratio := none } : SeriesRow).ratio = some (c / f)) :=
  series_ratio_spec
    [{ ts := 0, current_speed := some 30, freeflow_speed := some 60,
       confidence := some 1 },
     { ts := 1, current_speed := some 10, freeflow_speed := none,
       confidence := none },
     { ts := 2, current_speed := some 10, freeflow_speed := some 0,
       confidence := none }]
    [{ ts := 0, current_speed := some 30, freeflow_speed := some 60,
       confidence := some 1, ratio := some (30 / 60) },
     { ts := 1, current_speed := some 10, freeflow_speed := none,
       confidence := none, ratio := none },
     { ts := 2, current_speed := some 10, freeflow_speed := some 0,
       confidence := none, ratio := none }]
    (by norm_num [seriesRows, mkSeriesRow, seriesRatio, Except.map,
      Except.bind])
    { ts := 2, current_speed := some 10, freeflow_speed := some 0,
      confidence := none, ratio := none }
    (by simp)

/-! ## C4 — duplicate observation writes are silent no-ops -/

lemma hasObsKey_record (db : List ObsRow) (iid ts : ℕ) (f : SegFields) :
    hasObsKey (record db iid ts f) iid ts = true := by
  simp only [record]
  by_cases h : hasObsKey db iid ts
  · simp [h]
  · rw [if_neg (by simpa using h)]
    simp [hasObsKey, List.any_append]

/-- C4: with no row stored yet under `(iid, ts)`, a first
`store_observation` succeeds and inserts its row; a second call with the
same `(iid, ts)` (and any well-formed payload) raises no error and leaves
the table exactly as the first call left it, so exactly one row exists for
that key afterward and it carries the first call's fields. -/
theorem store_observation_dedup (db : List ObsRow) (iid ts : ℕ)
    (p₁ p₂ : JsonVal) (f₁ f₂ : SegFields)
    (h₁ : extractSeg p₁ = .ok f₁) (h₂ : extractSeg p₂ = .ok f₂)
    (hfresh : hasObsKey db iid ts = false) :
    store_observation db iid ts p₁ = .ok (record db iid ts f₁) ∧
    store_observation (record db iid ts f₁) iid ts p₂ =
      .ok (record db iid ts f₁) ∧
    (record db iid ts f₁).filter
        (fun o => o.intersection_id = iid && o.ts_utc = ts) =
      [{ intersection_id := iid, ts_utc := ts,
         current_speed := f₁.current_speed,
         freeflow_speed := f₁.freeflow_speed,
         current_travel_time := f₁.current_travel_time,
         freeflow_travel_time := f₁.freeflow_travel_time,
         confidence := f₁.confidence }] := by
  refine ⟨by simp [store_observation, h₁, Except.map], ?_, ?_⟩
  · have hk := hasObsKey_record db iid ts f₁
    have hno : record (record db iid ts f₁) iid ts f₂ =
        record db iid ts f₁ := by
      conv_lhs => rw [record]
      rw [if_pos hk]
    simp [store_observation, h₂, Except.map, hno]
  · rw [record, if_neg (by simp [hfresh])]
    rw [List.filter_append]
    have hnil : db.filter
        (fun o => o.intersection_id = iid && o.ts_utc = ts) = [] := by
      rw [List.filter_eq_nil_iff]
      intro o ho
      have hany := List.any_eq_false.mp hfresh o ho
      simpa using hany
    rw [hnil]
    simp

/-- C4 at a concrete input: two writes of different payloads to the same
key on an empty table. -/
theorem store_observation_dedup_witness :
    store_observation [] 1 100
        (.dict [("flowSegmentData", .dict [("currentSpeed", .num 42)])]) =
      .ok (record [] 1 100
        { current_speed := some (.num 42), freeflow_speed := none,
          current_travel_time := none, freeflow_travel_time := none,
          confidence := none }) ∧
    store_observation
        (record [] 1 100
          { current_speed := some (.num 42), freeflow_speed := none,
            current_travel_time := none, freeflow_travel_time := none,
            confidence := none }) 1 100
        (.dict [("flowSegmentData", .dict [("currentSpeed", .num 7)])]) =
      .ok (record [] 1 100
        { current_speed := some (.num 42), freeflow_speed := none,
          current_travel_time := none, freeflow_travel_time := none,
          confidence := none }) ∧
    (record [] 1 100
        { current_speed := some (.num 42), freeflow_speed := none,
          current_travel_time := none, freeflow_travel_time := none,
          confidence := none }).filter
        (fun o => o.intersection_id = 1 && o.ts_utc = 100) =
      [{ intersection_id := 1, ts_utc := 100,
         current_speed := some (.num 42), freeflow_speed := none,
         current_travel_time := none, freeflow_travel_time := none,
         confidence := none }] :=
  store_observation_dedup [] 1 100
    (.dict [("flowSegmentData", .dict [("currentSpeed", .num 42)])])
    (.dict [("flowSegmentData", .dict [("currentSpeed", .num 7)])])
    { current_speed := some (.num 42), freeflow_speed := none,
      current_travel_time := none, freeflow_travel_time := none,
      confidence := none }
    { current_speed := some (.num 7), freeflow_speed := none,
      current_travel_time := none, freeflow_travel_time := none,
      confidence := none }
    rfl rfl rfl

/-! ## C5 — intersection resolution is idempotent -/

/-- C5: resolving a coordinate pair with no stored intersection creates
one row carrying the first call's name and returns its id; resolving the
identical pair again returns the same id, adds nothing, and leaves the
stored name (the first call's) untouched. -/
theorem upsert_intersection_idempotent (db : List InterRow) (lat lon : ℚ)
    (n₁ n₂ : Option String)
    (hfresh : db.filter (fun i => i.lat = lat && i.lon = lon) = []) :
    upsert_intersection db lat lon n₁ =
      .ok (nextId db,
        db ++ [{ id := nextId db, name := n₁, lat := lat, lon := lon }]) ∧
    upsert_intersection
        (db ++ [{ id := nextId db, name := n₁, lat := lat, lon := lon }])
        lat lon n₂ =
      .ok (nextId db,
        db ++ [{ id := nextId db, name := n₁, lat := lat, lon := lon }]) ∧
    (db ++
        [({ id := nextId db, name := n₁, lat := lat,
            lon := lon } : InterRow)]).length =
      db.length + 1 := by
  have hfilter2 : (db ++
      [({ id := nextId db, name := n₁, lat := lat,
          lon := lon } : InterRow)]).filter
        (fun i => i.lat = lat && i.lon = lon) =
      [({ id := nextId db, name := n₁, lat := lat, lon := lon } : InterRow)] := by
    rw [List.filter_append, hfresh]
    simp
  refine ⟨?_, ?_, by simp⟩
  · simp only [upsert_intersection, hfresh]
  · simp only [upsert_intersection, hfilter2]

/-- C5 at a concrete input: resolving `(39.93, -83.055)` twice, with two
different names, on an empty table. -/
theorem upsert_intersection_idempotent_witness :
    upsert_intersection ([] : List InterRow) (3993 / 100) (-83055 / 1000)
        (some "grid_r0_c0") =
      .ok (nextId ([] : List InterRow),
        ([] : List InterRow) ++
          [({ id := nextId ([] : List InterRow), name := some "grid_r0_c0",
              lat := 3993 / 100, lon := -83055 / 1000 } : InterRow)]) ∧
    upsert_intersection
        (([] : List InterRow) ++
          [({ id := nextId ([] : List InterRow), name := some "grid_r0_c0",
              lat := 3993 / 100, lon := -83055 / 1000 } : InterRow)])
        (3993 / 100) (-83055 / 1000) (some "other") =
      .ok (nextId ([] : List InterRow),
        ([] : List InterRow) ++
          [({ id := nextId ([] : List InterRow), name := some "grid_r0_c0",
              lat := 3993 / 100, lon := -83055 / 1000 } : InterRow)]) ∧
    (([] : List InterRow) ++
        [({ id := nextId ([] : List InterRow), name := some "grid_r0_c0",
            lat := 3993 / 100, lon := -83055 / 1000 } : InterRow)]).length =
      List.length ([] : List InterRow) + 1 :=
  upsert_intersection_idempotent [] (3993 / 100) (-83055 / 1000)
    (some "grid_r0_c0") (some "other") rfl

/-! ## C9 — fields stored exactly as extracted, absent as absent -/

/-- C9: for a payload whose `flowSegmentData` is a dict, the inserted row
carries each of the five flow fields exactly as `seg.get(...)` extracts
it — `none` for a key the payload omits (never `some 0`), the raw value
otherwise. -/
theorem store_observation_fields (db : List ObsRow) (iid ts : ℕ)
    (entries seg : List (String × JsonVal))
    (hseg : dictGet entries "flowSegmentData" = some (.dict seg))
    (hfresh : hasObsKey db iid ts = false) :
    store_observation db iid ts (.dict entries) =
      .ok (db ++
        [{ intersection_id := iid, ts_utc := ts,
           current_speed := dictGet seg "currentSpeed",
           freeflow_speed := dictGet seg "freeFlowSpeed",
           current_travel_time := dictGet seg "currentTravelTime",
           freeflow_travel_time := dictGet seg "freeFlowTravelTime",
           confidence := dictGet seg "confidence" }]) := by
  simp only [store_observation, extractSeg, hseg, Option.getD_some,
    Except.map, record, hfresh, Bool.false_eq_true, if_false]

/-- C9 at a concrete input: a payload with `currentSpeed` and
`confidence` present and the three other keys absent — the absent keys
are stored as `none`. -/
theorem store_observation_fields_witness :
    store_observation [] 7 50
        (.dict [("flowSegmentData",
          .dict [("currentSpeed", .num 33), ("confidence", .num 1)])]) =
      .ok ([] ++
        [{ intersection_id := 7, ts_utc := 50,
           current_speed := dictGet
             [("currentSpeed", .num 33), ("confidence", .num 1)]
             "currentSpeed",
           freeflow_speed := dictGet
             [("currentSpeed", .num 33), ("confidence", .num 1)]
             "freeFlowSpeed",
           current_travel_time := dictGet
             [("currentSpeed", .num 33), ("confidence", .num 1)]
             "currentTravelTime",
           freeflow_travel_time := dictGet
             [("currentSpeed", .num 33), ("confidence", .num 1)]
             "freeFlowTravelTime",
           confidence := dictGet
             [("currentSpeed", .num 33), ("confidence", .num 1)]
             "confidence" }]) :=
  store_observation_fields [] 7 50
    [("flowSegmentData",
      .dict [("currentSpeed", .num 33), ("confidence", .num 1)])]
    [("currentSpeed", .num 33), ("confidence", .num 1)] rfl rfl

/-! ## C10 — degenerate payloads do not raise -/

/-- C10: for a payload that is not a dict (a number, a string, `null`) or
a dict without the `flowSegmentData` key, `store_observation` raises no
error and still inserts one row for `(iid, ts)` with all five flow fields
absent. -/
theorem store_observation_degenerate (db : List ObsRow) (iid ts : ℕ)
    (hfresh : hasObsKey db iid ts = false) :
    (∀ q, store_observation db iid ts (.num q) =
      .ok (db ++
        [{ intersection_id := iid, ts_utc := ts, current_speed := none,
           freeflow_speed := none, current_travel_time := none,
           freeflow_travel_time := none, confidence := none }])) ∧
    (∀ s, store_observation db iid ts (.str s) =
      .ok (db ++
        [{ intersection_id := iid, ts_utc := ts, current_speed := none,
           freeflow_speed := none, current_travel_time := none,
           freeflow_travel_time := none, confidence := none }])) ∧
    store_observation db iid ts .null =
      .ok (db ++
        [{ intersection_id := iid, ts_utc := ts, current_speed := none,
           freeflow_speed := none, current_travel_time := none,
           freeflow_travel_time := none, confidence := none }]) ∧
    (∀ entries, dictGet entries "flowSegmentData" = none →
      store_observation db iid ts (.dict entries) =
        .ok (db ++
          [{ intersection_id := iid, ts_utc := ts, current_speed := none,
             freeflow_speed := none, current_travel_time := none,
             freeflow_travel_time := none, confidence := none }])) := by
  refine ⟨?_, ?_, ?_, ?_⟩
  · intro q
    simp only [store_observation, extractSeg, dictGet, Except.map, record,
      hfresh, Bool.false_eq_true, if_false]
  · intro s
    simp only [store_observation, extractSeg, dictGet, Except.map, record,
      hfresh, Bool.false_eq_true, if_false]
  · simp only [store_observation, extractSeg, dictGet, Except.map, record,
      hfresh, Bool.false_eq_true, if_false]
  · intro entries hent
    simp only [store_observation, extractSeg, hent, Option.getD_none,
      dictGet, Except.map, record, hfresh, Bool.false_eq_true, if_false]

/-- C10 at a concrete input: a numeric payload, a string payload, `null`
and a dict lacking `flowSegmentData`, written to an empty table. -/
theorem store_observation_degenerate_witness :
    (∀ q, store_observation [] 3 9 (.num q) =
      .ok ([] ++
        [{ intersection_id := 3, ts_utc := 9, current_speed := none,
           freeflow_speed := none, current_travel_time := none,
           freeflow_travel_time := none, confidence := none }])) ∧
    (∀ s, store_observation [] 3 9 (.str s) =
      .ok ([] ++
        [{ intersection_id := 3, ts_utc := 9, current_speed := none,
           freeflow_speed := none, current_travel_time := none,
           freeflow_travel_time := none, confidence := none }])) ∧
    store_observation [] 3 9 .null =
      .ok ([] ++
        [{ intersection_id := 3, ts_utc := 9, current_speed := none,
           freeflow_speed := none, current_travel_time := none,
           freeflow_travel_time := none, confidence := none }]) ∧
    (∀ entries, dictGet entries "flowSegmentData" = none →
      store_observation [] 3 9 (.dict entries) =
        .ok ([] ++
          [{ intersection_id := 3, ts_utc := 9, current_speed := none,
             freeflow_speed := none, current_travel_time := none,
             freeflow_travel_time := none, confidence := none }])) :=
  store_observation_degenerate [] 3 9 rfl

/-! ## C7 — per-point failures never abort the cycle -/

lemma ingestLoop_length (fetch : ℚ → ℚ → Except String JsonVal) (ts : ℕ)
    (st : DbState) (points : List GridPoint) :
    (ingestLoop fetch ts st points).2.length = points.length := by
  induction points generalizing st with
  | nil => simp [ingestLoop]
  | cons p ps ih => simp [ingestLoop, ih]

/-- C7: with the API key present, `ingest_once` runs the loop over the
whole point sequence; the loop emits exactly one outcome per point, in
order, and a point whose processing fails contributes a `failed` outcome
while the remaining points are still processed from the state the failing
step left behind — a single point's failure never aborts the cycle. -/
theorem ingest_once_spec (key : String)
    (fetch : ℚ → ℚ → Except String JsonVal) (ts : ℕ) (st : DbState)
    (points : List GridPoint) (hkey : key ≠ "") :
    ingest_once key fetch ts st points =
      .ok (ingestLoop fetch ts st points) ∧
    (ingestLoop fetch ts st points).2.length = points.length ∧
    (∀ st₀ p ps st₁ e, processPoint fetch ts st₀ p = (st₁, .failed e) →
      ingestLoop fetch ts st₀ (p :: ps) =
        ((ingestLoop fetch ts st₁ ps).1,
          .failed e :: (ingestLoop fetch ts st₁ ps).2)) := by
  refine ⟨by simp [ingest_once, hkey], ingestLoop_length fetch ts st points,
    ?_⟩
  intro st₀ p ps st₁ e h
  simp [ingestLoop, h]

/-- C7 at a concrete input: a two-point cycle against a fetch that always
fails. -/
theorem ingest_once_spec_witness :
    ingest_once "k" (fun _ _ => .error "boom") 0
        { inters := [], obs := [] }
        [{ lat := 0, lon := 0, name := "grid_r0_c0" },
         { lat := 1, lon := 1, name := "grid_r0_c1" }] =
      .ok (ingestLoop (fun _ _ => .error "boom") 0
        { inters := [], obs := [] }
        [{ lat := 0, lon := 0, name := "grid_r0_c0" },
         { lat := 1, lon := 1, name := "grid_r0_c1" }]) ∧
    (ingestLoop (fun _ _ => .error "boom") 0 { inters := [], obs := [] }
        [{ lat := 0, lon := 0, name := "grid_r0_c0" },
         { lat := 1, lon := 1, name := "grid_r0_c1" }]).2.length =
      ([{ lat := 0, lon := 0, name := "grid_r0_c0" },
        { lat := 1, lon := 1, name := "grid_r0_c1" }] :
          List GridPoint).length ∧
    (∀ st₀ p ps st₁ e,
      processPoint (fun _ _ => .error "boom") 0 st₀ p =
        (st₁, .failed e) →
      ingestLoop (fun _ _ => .error "boom") 0 st₀ (p :: ps) =
        ((ingestLoop (fun _ _ => .error "boom") 0 st₁ ps).1,
          .failed e ::
            (ingestLoop (fun _ _ => .error "boom") 0 st₁ ps).2)) :=
  ingest_once_spec "k" (fun _ _ => .error "boom") 0
    { inters := [], obs := [] }
    [{ lat := 0, lon := 0, name := "grid_r0_c0" },
     { lat := 1, lon := 1, name := "grid_r0_c1" }] (by decide)

/-! ## C8 — scheduler trace -/

lemma flatMap_range_cycle_sleep (c s : Event) (n k : ℕ) (hnk : n ≤ k) :
    (List.range n).flatMap (fun i => c :: (if i < k then [s] else [])) =
      (List.replicate n [c, s]).flatten := by
  induction n with
  | zero => simp
  | succ m ih =>
      rw [List.range_succ, List.flatMap_append, ih (by omega),
        List.replicate_succ', List.flatten_append]
      simp [Nat.lt_of_lt_of_le (Nat.lt_succ_self m) hnk]

lemma flatten_replicate_intersperse (c s : Event) (n : ℕ) :
    (List.replicate n [c, s]).flatten ++ [c] =
      List.intersperse s (List.replicate (n + 1) c) := by
  induction n with
  | zero => simp
  | succ m ih =>
      have h1 : List.replicate (m + 1) [c, s] =
          [c, s] :: List.replicate m [c, s] := rfl
      have h2 : List.replicate (m + 1 + 1) c =
          c :: c :: List.replicate m c := rfl
      have h3 : List.replicate (m + 1) c = c :: List.replicate m c := rfl
      rw [h1, List.flatten_cons, List.append_assoc, ih, h2]
      rw [show List.intersperse s (c :: c :: List.replicate m c) =
          c :: s :: List.intersperse s (c :: List.replicate m c) from rfl]
      rw [h3]
      rfl

lemma countP_intersperse {α : Type} (p : α → Bool) (s : α)
    (hp : p s = false) :
    ∀ l : List α, (List.intersperse s l).countP p = l.countP p := by
  intro l
  induction l with
  | nil => simp
  | cons a rest ih =>
      cases rest with
      | nil => simp
      | cons b t =>
          rw [show List.intersperse s (a :: b :: t) =
              a :: s :: List.intersperse s (b :: t) from rfl]
          simp [List.countP_cons, ih, hp]

/-- C8: with `interval ≤ 0` the scheduler's trace is a single cycle and
no sleep; with `interval > 0` it is exactly `max(iterations, 1)` cycles
with one sleep of `interval` minutes (`interval * 60` seconds) between
consecutive cycles and none after the last — the trace is the cycles
interspersed with sleeps, and its cycle count is `max(iterations, 1)`. -/
theorem scheduler_spec (interval iterations : ℤ) :
    (interval ≤ 0 → scheduler interval iterations = [Event.cycle]) ∧
    (0 < interval →
      scheduler interval iterations =
        List.intersperse (Event.sleepSec (interval * 60))
          (List.replicate (max iterations 1).toNat Event.cycle) ∧
      (scheduler interval iterations).countP Event.isCycle =
        (max iterations 1).toNat) := by
  constructor
  · intro h
    simp [scheduler, h]
  · intro h
    have hnle : ¬ interval ≤ 0 := by omega
    have h1 : (1 : ℤ) ≤ max iterations 1 := le_max_right _ _
    have hn : 1 ≤ (max iterations 1).toNat := by omega
    have htrace : scheduler interval iterations =
        List.intersperse (Event.sleepSec (interval * 60))
          (List.replicate (max iterations 1).toNat Event.cycle) := by
      rw [scheduler, if_neg hnle]
      show (List.range ((max iterations 1).toNat)).flatMap
          (fun i => Event.cycle ::
            (if i < (max iterations 1).toNat - 1
             then [Event.sleepSec (interval * 60)] else [])) = _
      obtain ⟨m, hm⟩ : ∃ m, (max iterations 1).toNat = m + 1 :=
        ⟨(max iterations 1).toNat - 1, by omega⟩
      rw [hm]
      rw [List.range_succ, List.flatMap_append]
      rw [flatMap_range_cycle_sleep _ _ m (m + 1 - 1) (by omega)]
      simp only [List.flatMap_cons, List.flatMap_nil, List.append_nil]
      rw [if_neg (by omega)]
      exact flatten_replicate_intersperse _ _ m
    refine ⟨htrace, ?_⟩
    rw [htrace, countP_intersperse _ _ rfl]
    simp [List.countP_replicate, Event.isCycle]

end TrafficData
